import Mathlib

/-!
Shallow embedding of the runtime-configured (dynamic) query engine of
`bevy_ecs` (files `src/crates/bevy_ecs/src/query/dynamic.rs` and
`src/crates/bevy_ecs/src/query/dynamic/{mod,fetch,filter}.rs`).

Modelling conventions:
* `ComponentId`, `Entity`, `TypeId` and raw pointers/addresses are `Nat`.
* A raw pointer to an array is modelled by the list it points to; a null
  pointer is the empty list; dereferencing out of bounds is a failure (`none`).
* A Rust `panic!` / `.unwrap()` / `.expect(..)` is modelled by returning
  `none` from an `Option`-valued function.
* External collaborators (World registry, Archetype, Table, sparse set) are
  modelled per the spec's §6 contract: an archetype is the set of component
  handles it contains plus entity array, row mapping and table id; a table is
  a keyed column set plus entity array.
-/

namespace DynQuery

/-- Storage kinds of a registered component (`bevy_ecs::component::StorageType`). -/
inductive StorageType where
  | Table
  | SparseSet
deriving DecidableEq

/-- A memory layout: size and alignment in bytes (`std::alloc::Layout`). -/
structure Layout where
  size : Nat
  align : Nat
deriving DecidableEq

/-- Round `size` up to the next multiple of `align`.  Models the bitmask
formula of `std::alloc::Layout::padding_needed_for` (the two agree for the
power-of-two alignments Rust guarantees). -/
def roundUpTo (size align : Nat) : Nat := ((size + align - 1) / align) * align

/-- Modelled from the spec: `std::alloc::Layout::padding_needed_for` (std
library, outside src/) — the padding that rounds the current size up to the
given alignment. -/
def Layout.padding_needed_for (l : Layout) (align : Nat) : Nat :=
  roundUpTo l.size align - l.size

/-- Modelled from the spec: `std::alloc::Layout::extend` (std library, outside
src/) — the standard layout-extension rule of §4.2: round the current size up
to the next layout's alignment (this is the field's offset), then add the next
layout's size; the alignment is the max of the two. -/
def Layout.extend (l next : Layout) : Layout × Nat :=
  let offset := l.size + l.padding_needed_for next.align
  ({ size := offset + next.size, align := max l.align next.align }, offset)

/-- A registered component's resolved data (`ComponentInfo`): layout and
storage kind. -/
structure ComponentInfo where
  layout : Layout
  storage_type : StorageType
deriving DecidableEq

/-- A sparse set, keyed by entity, yielding the component's data address
(spec §6: `get_with_ticks(entity) → (data_ptr, ticks_ptr) or none`; ticks are
not consulted by the dynamic query code, so only the data address is kept). -/
def SparseSetData := List (Nat × Nat)
deriving instance DecidableEq for SparseSetData

/-- The world as consumed by the dynamic query code (spec §6 contract):
component registry and sparse-set storage. -/
structure World where
  components : List (Nat × ComponentInfo)
  sparse_sets : List (Nat × SparseSetData)
deriving DecidableEq

/-- `world.components.get_info(id)`: `none` when the handle is unregistered. -/
def World.get_info (w : World) (id : Nat) : Option ComponentInfo :=
  w.components.lookup id

/-- `world.storages().sparse_sets.get(id)`. -/
def World.get_sparse_set (w : World) (id : Nat) : Option SparseSetData :=
  w.sparse_sets.lookup id

/-- An archetype (spec §3/§6): the set of component handles it contains, its
entity array, the archetype-row → table-row mapping, and its table id. -/
structure Archetype where
  components : List Nat
  entities : List Nat
  entity_table_rows : List Nat
  table_id : Nat
deriving DecidableEq

/-- `archetype.contains(h)`. -/
def Archetype.contains (a : Archetype) (id : Nat) : Bool :=
  a.components.contains id

/-- A dense column: base address of its contiguous component bytes (ticks are
not consulted by the code under verification). -/
structure Column where
  data_ptr : Nat
deriving DecidableEq

/-- A table (spec §3/§6): keyed column set plus entity array. -/
structure Table where
  columns : List (Nat × Column)
  entities : List Nat
deriving DecidableEq

/-- `table.get_column(h)`. -/
def Table.get_column (t : Table) (id : Nat) : Option Column :=
  t.columns.lookup id

/-- `table.has_column(h)`. -/
def Table.has_column (t : Table) (id : Nat) : Bool :=
  (t.get_column id).isSome

/-- A dynamic query parameter (`dynamic/mod.rs` `DynamicParam`): `Entity`, or
a component access with `optional` and `mutable` flags.  (The older
`dynamic.rs` splits the component case into `Component`/`OptionalComponent`
variants without flags; the merged form subsumes both.) -/
inductive DynamicParam where
  | entity
  | component (component_id : Nat) (optional : Bool) (mutable : Bool)
deriving DecidableEq

/-- A dynamic filter expression (`dynamic/mod.rs` `DynamicFilter`):
`With`/`Without` literals and nested `Or` sets (the `DynamicFilterSet` wrapper
struct is flattened into the child list). -/
inductive DynamicFilter where
  | with_ (component_id : Nat)
  | without (component_id : Nat)
  | or (set : List DynamicFilter)

/-- Resolved filter state (`dynamic/mod.rs` `DynamicFilterState`): a
`WithOrWithout` literal or a nested `Or` of child states (the
`DynamicSetFilterState` wrapper struct is flattened into the child list). -/
inductive DynamicFilterState where
  | withOrWithout (component_id : Nat) (without : Bool)
  | or (params : List DynamicFilterState)

mutual

/-- `impl From<DynamicFilter> for DynamicFilterState` (`dynamic/mod.rs`). -/
def DynamicFilterState.ofFilter : DynamicFilter → DynamicFilterState
  | .with_ id => .withOrWithout id false
  | .without id => .withOrWithout id true
  | .or set => .or (DynamicFilterState.ofFilterList set)

/-- The `From` conversion mapped over a filter set. -/
def DynamicFilterState.ofFilterList : List DynamicFilter → List DynamicFilterState
  | [] => []
  | f :: fs => DynamicFilterState.ofFilter f :: DynamicFilterState.ofFilterList fs

end

/-- A dynamic query description (`dynamic/mod.rs` `DynamicQuery`): ordered
parameter list plus top-level filter set. -/
structure DynamicQuery where
  params : List DynamicParam
  filter : List DynamicFilter

/-- Per-parameter resolved state (`DynamicFetchState`). -/
structure DynamicFetchState where
  param : DynamicParam
deriving DecidableEq

/-- `DynamicQuery::fetch_state` (`dynamic/mod.rs` lines 32–41): wraps each
parameter into a `DynamicFetchState`, with no validation against any world. -/
def DynamicQuery.fetch_state (q : DynamicQuery) : List DynamicFetchState :=
  q.params.map (fun p => ⟨p⟩)

/-- `DynamicQuery::filter_state` (`dynamic/mod.rs` lines 43–47): converts each
filter into its state via the `From` impl. -/
def DynamicQuery.filter_state (q : DynamicQuery) : List DynamicFilterState :=
  q.filter.map DynamicFilterState.ofFilter

/-- Modelled from the spec: `bevy_ecs::query::Access` is outside src/ (only
its callers are).  Per §4.3 the declaration carries a `reads` and a `writes`
set; `has_read` reports that a handle is already declared readable, where a
declared write also grants read access (the conflict rules of §4.3). -/
structure Access where
  reads : List Nat
  writes : List Nat
deriving DecidableEq

/-- Modelled from the spec: `Access::has_read` — the handle is already
declared readable (directly or through a write). -/
def Access.has_read (a : Access) (id : Nat) : Bool :=
  a.reads.contains id || a.writes.contains id

/-- Modelled from the spec: `Access::add_write`. -/
def Access.add_write (a : Access) (id : Nat) : Access :=
  { a with writes := id :: a.writes }

/-- Modelled from the spec: `Access::add_read`. -/
def Access.add_read (a : Access) (id : Nat) : Access :=
  { a with reads := id :: a.reads }

/-- Modelled from the spec: `bevy_ecs::query::FilteredAccess` is outside src/.
Per §4.3 it adds the `with`/`without` sets to the access declaration. -/
structure FilteredAccess where
  access : Access
  with_ : List Nat
  without : List Nat
deriving DecidableEq

/-- Modelled from the spec: `FilteredAccess::add_write`. -/
def FilteredAccess.add_write (fa : FilteredAccess) (id : Nat) : FilteredAccess :=
  { fa with access := fa.access.add_write id }

/-- Modelled from the spec: `FilteredAccess::add_with`. -/
def FilteredAccess.add_with (fa : FilteredAccess) (id : Nat) : FilteredAccess :=
  { fa with with_ := id :: fa.with_ }

/-- Modelled from the spec: `FilteredAccess::add_without`. -/
def FilteredAccess.add_without (fa : FilteredAccess) (id : Nat) : FilteredAccess :=
  { fa with without := id :: fa.without }

/-- The empty access declaration. -/
def FilteredAccess.empty : FilteredAccess := ⟨⟨[], []⟩, [], []⟩

/-- `DynamicFetchState::update_component_access` (`dynamic.rs` 470–481,
`dynamic/fetch.rs` 297–308): every component parameter — optional or not,
whatever its `mutable` flag — panics if the handle is already readable and
otherwise declares a write; `Entity` contributes nothing.  The panic is
modelled as `none`. -/
def DynamicFetchState.update_component_access
    (s : DynamicFetchState) (access : FilteredAccess) : Option FilteredAccess :=
  match s.param with
  | .component id _ _ =>
      if access.access.has_read id then none
      else some (access.add_write id)
  | .entity => some access

/-- `DynamicSetFetchState::update_component_access` (`dynamic.rs` 603–607):
fold the per-parameter updates left to right, propagating a panic. -/
def DynamicSetFetchState.update_component_access :
    List DynamicFetchState → FilteredAccess → Option FilteredAccess
  | [], acc => some acc
  | p :: ps, acc =>
      (p.update_component_access acc).bind
        (DynamicSetFetchState.update_component_access ps)

/-- `DynamicFetchState::matches_archetype` (`dynamic.rs` 508–514): a
non-optional component requires containment; optional components and `Entity`
always match. -/
def DynamicFetchState.matches_archetype (s : DynamicFetchState) (a : Archetype) : Bool :=
  match s.param with
  | .component id false _ => a.contains id
  | .component _ true _ => true
  | .entity => true

/-- `DynamicFetchState::matches_table` (`dynamic.rs` 516–522). -/
def DynamicFetchState.matches_table (s : DynamicFetchState) (t : Table) : Bool :=
  match s.param with
  | .component id false _ => t.has_column id
  | .component _ true _ => true
  | .entity => true

/-- `DynamicSetFetchState::matches_archetype` (`dynamic.rs` 620–623): all
parameters must match. -/
def DynamicSetFetchState.matches_archetype
    (ps : List DynamicFetchState) (a : Archetype) : Bool :=
  ps.all (fun p => p.matches_archetype a)

mutual

/-- `DynamicFilterState::matches_archetype` (`dynamic/filter.rs` 41–51):
a literal matches by containment xor `without`; an `Or` matches when any
child does. -/
def DynamicFilterState.matches_archetype : DynamicFilterState → Archetype → Bool
  | .withOrWithout id wo, a => Bool.xor (a.contains id) wo
  | .or ps, a => DynamicFilterState.anyMatchesArchetype ps a

/-- `set.params.iter().any(|f| f.matches_archetype(archetype))`. -/
def DynamicFilterState.anyMatchesArchetype : List DynamicFilterState → Archetype → Bool
  | [], _ => false
  | f :: fs, a =>
      f.matches_archetype a || DynamicFilterState.anyMatchesArchetype fs a

end

mutual

/-- `DynamicFilterState::matches_table` (`dynamic/filter.rs` 54–62). -/
def DynamicFilterState.matches_table : DynamicFilterState → Table → Bool
  | .withOrWithout id wo, t => Bool.xor (t.has_column id) wo
  | .or ps, t => DynamicFilterState.anyMatchesTable ps t

/-- `set.params.iter().any(|f| f.matches_table(table))`. -/
def DynamicFilterState.anyMatchesTable : List DynamicFilterState → Table → Bool
  | [], _ => false
  | f :: fs, t => f.matches_table t || DynamicFilterState.anyMatchesTable fs t

end

/-- `DynamicSetFilterState::matches_archetype` (`dynamic/filter.rs` 89–91):
all top-level members must match. -/
def DynamicSetFilterState.matches_archetype
    (ps : List DynamicFilterState) (a : Archetype) : Bool :=
  ps.all (fun p => p.matches_archetype a)

/-- `DynamicSetFilterState::matches_table` (`dynamic/filter.rs` 94–96). -/
def DynamicSetFilterState.matches_table
    (ps : List DynamicFilterState) (t : Table) : Bool :=
  ps.all (fun p => p.matches_table t)

mutual

/-- `DynamicFilterState::update_component_access` (`dynamic/filter.rs` 16–30):
a literal adds its handle to `with` or `without`; an `Or` folds in all its
children.  No unsatisfiability check of any kind is performed. -/
def DynamicFilterState.update_component_access :
    DynamicFilterState → FilteredAccess → FilteredAccess
  | .withOrWithout id wo, acc =>
      if wo then acc.add_without id else acc.add_with id
  | .or ps, acc => DynamicFilterState.updateAccessList ps acc

/-- Left-to-right fold of the per-filter access updates. -/
def DynamicFilterState.updateAccessList :
    List DynamicFilterState → FilteredAccess → FilteredAccess
  | [], acc => acc
  | f :: fs, acc =>
      DynamicFilterState.updateAccessList fs (f.update_component_access acc)

end

/-- `DynamicSetFilterState::update_component_access` (`dynamic/filter.rs`
71–75). -/
def DynamicSetFilterState.update_component_access
    (ps : List DynamicFilterState) (acc : FilteredAccess) : FilteredAccess :=
  DynamicFilterState.updateAccessList ps acc

/-- A per-row yielded item (`dynamic.rs` `DynamicItem`): a type-erased
component pointer (address), the entity handle, or the component-not-present
marker `NoMatch`. -/
inductive DynamicItem where
  | Component (pointer : Nat)
  | Entity (e : Nat)
  | NoMatch
deriving DecidableEq

/-- Per-parameter fetch state (`dynamic.rs` `DynamicFetch`).  Pointer fields
are modelled as the arrays/addresses they point to; ticks and change ticks are
carried by the source but never read by it, so they are omitted. -/
inductive DynamicFetch where
  | entity (entities : List Nat)
  | component (component_id : Nat) (component_layout : Layout)
      (storage_type : StorageType) (table_components : Nat)
      (entities : List Nat) (entity_table_rows : List Nat)
      (sparse_set : SparseSetData)
  | optionalComponent (matched : Bool) (component_id : Nat)
      (component_layout : Layout) (storage_type : StorageType)
      (table_components : Nat) (entities : List Nat)
      (entity_table_rows : List Nat) (sparse_set : SparseSetData)
deriving DecidableEq

/-- `DynamicFetch::init` (`dynamic.rs` 189–248): resolve the component's
layout and storage kind from the world (`expect` panics — `none` — on an
unregistered handle), capture the sparse set for sparse storage (`unwrap`
panics when missing), and start with dangling/null pointers.  The dangling
`table_components` is modelled as address 0 and null arrays as `[]`. -/
def DynamicFetch.init (world : World) (state : DynamicFetchState) :
    Option DynamicFetch :=
  match state.param with
  | .component id false _ =>
      match world.get_info id with
      | none => none
      | some info =>
          match (if info.storage_type = .SparseSet
                 then world.get_sparse_set id else some []) with
          | none => none
          | some ss =>
              some (.component id info.layout info.storage_type 0 [] [] ss)
  | .component id true _ =>
      match world.get_info id with
      | none => none
      | some info =>
          match (if info.storage_type = .SparseSet
                 then world.get_sparse_set id else some []) with
          | none => none
          | some ss =>
              some (.optionalComponent false id info.layout info.storage_type
                0 [] [] ss)
  | .entity => some (.entity [])

/-- `DynamicFetch::is_dense` (`dynamic.rs` 250–272): table-storage components
and `Entity` are dense; sparse-set components are not. -/
def DynamicFetch.is_dense : DynamicFetch → Bool
  | .component _ _ .Table _ _ _ _ => true
  | .optionalComponent _ _ _ .Table _ _ _ _ => true
  | .component _ _ .SparseSet _ _ _ _ => false
  | .optionalComponent _ _ _ .SparseSet _ _ _ _ => false
  | .entity _ => true

/-- `DynamicFetch::set_archetype` (`dynamic.rs` 275–338): wire the pointers
for the entered archetype.  Table components capture the row mapping and the
column of the archetype's table (indexing/`unwrap` panics are `none`); sparse
components and `Entity` capture the archetype's entity array; optional
parameters first recompute their `matches` flag as containment and only wire
pointers when matched. -/
def DynamicFetch.set_archetype (f : DynamicFetch) (archetype : Archetype)
    (tables : List Table) : Option DynamicFetch :=
  match f with
  | .component id lay .Table _ ents _ ss =>
      match (tables.get? archetype.table_id).bind (fun t => t.get_column id) with
      | none => none
      | some col =>
          some (.component id lay .Table col.data_ptr ents
            archetype.entity_table_rows ss)
  | .optionalComponent _ id lay .Table tc ents etr ss =>
      if archetype.contains id then
        match (tables.get? archetype.table_id).bind (fun t => t.get_column id) with
        | none => none
        | some col =>
            some (.optionalComponent true id lay .Table col.data_ptr ents
              archetype.entity_table_rows ss)
      else some (.optionalComponent false id lay .Table tc ents etr ss)
  | .optionalComponent _ id lay .SparseSet tc ents etr ss =>
      if archetype.contains id then
        some (.optionalComponent true id lay .SparseSet tc archetype.entities
          etr ss)
      else some (.optionalComponent false id lay .SparseSet tc ents etr ss)
  | .component id lay .SparseSet tc _ etr ss =>
      some (.component id lay .SparseSet tc archetype.entities etr ss)
  | .entity _ => some (.entity archetype.entities)

/-- `DynamicFetch::set_table` (`dynamic.rs` 341–373): wire the pointers for
the entered table.  The component arm looks its column up regardless of
storage kind (the dense path never carries sparse components); optional
parameters gate on `matches_table`, i.e. `has_column`. -/
def DynamicFetch.set_table (f : DynamicFetch) (table : Table) :
    Option DynamicFetch :=
  match f with
  | .component id lay st _ ents etr ss =>
      match table.get_column id with
      | none => none
      | some col => some (.component id lay st col.data_ptr ents etr ss)
  | .optionalComponent _ id lay st tc ents etr ss =>
      if table.has_column id then
        match table.get_column id with
        | none => none
        | some col =>
            some (.optionalComponent true id lay st col.data_ptr ents etr ss)
      else some (.optionalComponent false id lay st tc ents etr ss)
  | .entity _ => some (.entity table.entities)

/-- `DynamicFetch::archetype_fetch` (`dynamic.rs` 376–425): translate the
archetype row through the row mapping (table storage) or look the entity up in
the sparse set (sparse storage, `unwrap` panic as `none`); an unmatched
optional yields `NoMatch`; `Entity` dereferences the entity array. -/
def DynamicFetch.archetype_fetch (f : DynamicFetch) (archetype_index : Nat) :
    Option DynamicItem :=
  match f with
  | .component _ lay .Table tc _ etr _ =>
      match etr.get? archetype_index with
      | none => none
      | some row => some (.Component (tc + row * lay.size))
  | .optionalComponent true _ lay .Table tc _ etr _ =>
      match etr.get? archetype_index with
      | none => none
      | some row => some (.Component (tc + row * lay.size))
  | .component _ _ .SparseSet _ ents _ ss =>
      match (ents.get? archetype_index).bind (fun e => ss.lookup e) with
      | none => none
      | some ptr => some (.Component ptr)
  | .optionalComponent true _ _ .SparseSet _ ents _ ss =>
      match (ents.get? archetype_index).bind (fun e => ss.lookup e) with
      | none => none
      | some ptr => some (.Component ptr)
  | .optionalComponent false _ _ _ _ _ _ _ => some .NoMatch
  | .entity ents => (ents.get? archetype_index).map .Entity

/-- `DynamicFetch::table_fetch` (`dynamic.rs` 428–456): index the column
directly by table row (no storage-kind check in the source); an unmatched
optional yields `NoMatch`; `Entity` dereferences the table's entity array. -/
def DynamicFetch.table_fetch (f : DynamicFetch) (table_row : Nat) :
    Option DynamicItem :=
  match f with
  | .component _ lay _ tc _ _ _ => some (.Component (tc + table_row * lay.size))
  | .optionalComponent true _ lay _ tc _ _ _ =>
      some (.Component (tc + table_row * lay.size))
  | .optionalComponent false _ _ _ _ _ _ _ => some .NoMatch
  | .entity ents => (ents.get? table_row).map .Entity

/-- Collect an `Option`-valued map over a list, failing (panicking) as soon as
one element fails — the effect of the source's inline `unwrap`/`expect` calls
inside `.iter().map(..).collect()`. -/
def traverseOption (f : α → Option β) : List α → Option (List β)
  | [] => some []
  | x :: xs =>
      match f x, traverseOption f xs with
      | some y, some ys => some (y :: ys)
      | _, _ => none

/-- The whole-query fetch (`DynamicSetFetch`): one `DynamicFetch` per
parameter, in declaration order. -/
structure DynamicSetFetch where
  params_fetch : List DynamicFetch
deriving DecidableEq

/-- `DynamicSetFetch::init` (`dynamic.rs` 533–546): initialize each
parameter's fetch in order. -/
def DynamicSetFetch.init (world : World) (state : List DynamicFetchState) :
    Option DynamicSetFetch :=
  (traverseOption (fun s => DynamicFetch.init world s) state).map DynamicSetFetch.mk

/-- `DynamicSetFetch::is_dense` (`dynamic.rs` 548–551): all parameters must be
dense. -/
def DynamicSetFetch.is_dense (f : DynamicSetFetch) : Bool :=
  f.params_fetch.all DynamicFetch.is_dense

/-- `DynamicSetFetch::set_archetype` (`dynamic.rs` 553–564): enter the
archetype on every parameter's fetch, in order. -/
def DynamicSetFetch.set_archetype (f : DynamicSetFetch) (archetype : Archetype)
    (tables : List Table) : Option DynamicSetFetch :=
  (traverseOption (fun p => p.set_archetype archetype tables) f.params_fetch).map
    DynamicSetFetch.mk

/-- `DynamicSetFetch::set_table` (`dynamic.rs` 566–572). -/
def DynamicSetFetch.set_table (f : DynamicSetFetch) (table : Table) :
    Option DynamicSetFetch :=
  (traverseOption (fun p => p.set_table table) f.params_fetch).map
    DynamicSetFetch.mk

/-- `DynamicSetFetch::archetype_fetch` (`dynamic.rs` 574–583): the row's items
are the per-parameter fetches, collected in declaration order. -/
def DynamicSetFetch.archetype_fetch (f : DynamicSetFetch)
    (archetype_index : Nat) : Option (List DynamicItem) :=
  traverseOption (fun p => p.archetype_fetch archetype_index) f.params_fetch

/-- `DynamicSetFetch::table_fetch` (`dynamic.rs` 585–594). -/
def DynamicSetFetch.table_fetch (f : DynamicSetFetch) (table_row : Nat) :
    Option (List DynamicItem) :=
  traverseOption (fun p => p.table_fetch table_row) f.params_fetch

/-- Per-filter fetch state (`DynamicFilterFetch`): only the resolved storage
kind. -/
structure DynamicFilterFetch where
  storage_type : StorageType
deriving DecidableEq

/-- `DynamicFilterFetch::archetype_fetch` (`dynamic.rs` 667–670,
`dynamic/filter.rs` 209–212): unconditionally `true`. -/
def DynamicFilterFetch.archetype_fetch (_f : DynamicFilterFetch)
    (_archetype_index : Nat) : Bool :=
  true

/-- `DynamicFilterFetch::table_fetch` (`dynamic.rs` 672–675,
`dynamic/filter.rs` 214–217): unconditionally `true`. -/
def DynamicFilterFetch.table_fetch (_f : DynamicFilterFetch)
    (_table_row : Nat) : Bool :=
  true

/-- `DynamicSetFilterFetch::archetype_fetch` (`dynamic/filter.rs` 144–149):
conjunction of the per-filter row fetches. -/
def DynamicSetFilterFetch.archetype_fetch (fs : List DynamicFilterFetch)
    (archetype_index : Nat) : Bool :=
  fs.all (fun p => p.archetype_fetch archetype_index)

/-- `DynamicSetFilterFetch::table_fetch` (`dynamic/filter.rs` 151–156). -/
def DynamicSetFilterFetch.table_fetch (fs : List DynamicFilterFetch)
    (table_row : Nat) : Bool :=
  fs.all (fun p => p.table_fetch table_row)

/-- The loop body of `DynamicParamSet::get_layout` (`dynamic.rs` 33–44):
extend the accumulated layout by each remaining parameter's layout, appending
each returned offset. -/
def getLayoutLoop : Layout → List Nat → List Layout → Layout × List Nat
  | full, offsets, [] => (full, offsets)
  | full, offsets, l :: rest =>
      let e := full.extend l
      getLayoutLoop e.1 (offsets ++ [e.2]) rest

/-- `DynamicParamSet::get_layout` (`dynamic.rs` 33–44), abstracted over the
per-parameter layouts (`DynamicParam::get_layout` resolves them from the
world's registry).  The first parameter is taken by `iter.next().unwrap()` —
a panic (`none`) on an empty parameter list — and seeds the fold with offset
list `[0]`. -/
def DynamicParamSet.get_layout : List Layout → Option (Layout × List Nat)
  | [] => none
  | l :: rest => some (getLayoutLoop l [0] rest)

/-- An immutable type-erased component reference (`dynamic/mod.rs`
`DynamicComponentReference`): the stored type identity token and the data
address. -/
structure DynamicComponentReference where
  type_id : Nat
  pointer : Nat
deriving DecidableEq

/-- `DynamicComponentReference::downcast` (`dynamic/mod.rs` 262–270): `none`
when the requested type identity differs from the stored one, otherwise the
reference (modelled by its address). -/
def DynamicComponentReference.downcast (r : DynamicComponentReference)
    (t : Nat) : Option Nat :=
  if t ≠ r.type_id then none else some r.pointer

/-- A mutable type-erased component reference (`dynamic/mod.rs`
`DynamicMutComponentReference`). -/
structure DynamicMutComponentReference where
  type_id : Nat
  pointer : Nat
deriving DecidableEq

/-- `DynamicMutComponentReference::downcast` (`dynamic/mod.rs` 295–303). -/
def DynamicMutComponentReference.downcast (r : DynamicMutComponentReference)
    (t : Nat) : Option Nat :=
  if t ≠ r.type_id then none else some r.pointer

/-- Whether a fetch is the `OptionalComponent` variant. -/
def DynamicFetch.isOptionalVariant : DynamicFetch → Bool
  | .optionalComponent _ _ _ _ _ _ _ _ => true
  | _ => false

/-- The component handles named by a parameter list, optional or not, in
order (used to describe what `update_component_access` writes). -/
def componentIds (ps : List DynamicFetchState) : List Nat :=
  ps.filterMap (fun s =>
    match s.param with
    | .component id _ _ => some id
    | .entity => none)

/-- The component handles of exactly the parameters marked `mutable` — the
set the spec says the `writes` declaration should equal. -/
def mutableComponentIds (ps : List DynamicFetchState) : List Nat :=
  ps.filterMap (fun s =>
    match s.param with
    | .component id _ true => some id
    | _ => none)

/-- Spec-side predicate (the claim's words, for comparison with the source's
`matches_archetype`): a non-optional component parameter's handle must be
contained in the archetype; `Entity` and optional parameters always accept. -/
def ParamAcceptsSpec (p : DynamicParam) (a : Archetype) : Prop :=
  match p with
  | .component id false _ => id ∈ a.components
  | .component _ true _ => True
  | .entity => True

mutual

/-- Spec-side predicate (the claim's words): `With(h)` accepts iff `h` is in
the archetype, `Without(h)` iff it is not, a nested `Or` iff some child
accepts (so an empty `Or` accepts no archetype). -/
def FilterAcceptsSpec : DynamicFilterState → Archetype → Prop
  | .withOrWithout id false, a => id ∈ a.components
  | .withOrWithout id true, a => id ∉ a.components
  | .or ps, a => FilterAcceptsAnySpec ps a

/-- Some member of the list accepts the archetype. -/
def FilterAcceptsAnySpec : List DynamicFilterState → Archetype → Prop
  | [], _ => False
  | f :: fs, a => FilterAcceptsSpec f a ∨ FilterAcceptsAnySpec fs a

end

/-- Spec-side predicate (the claim's words, for the dense-selection law): the
parameter is `Entity`, or a component whose resolved storage kind is
`Table`. -/
def ParamDenseSpec (w : World) (p : DynamicParam) : Prop :=
  match p with
  | .entity => True
  | .component id _ _ =>
      ∃ info, w.get_info id = some info ∧ info.storage_type = .Table

/-- Spec-side total layout (the claim's words): fold the per-parameter
layouts left to right with the layout-extension rule. -/
def specTotalLayout (first : Layout) (rest : List Layout) : Layout :=
  rest.foldl (fun acc l => (acc.extend l).1) first

/-- Spec-side offsets of the parameters after the first: each is the offset
returned by extending the accumulated layout. -/
def specOffsetsAux : Layout → List Layout → List Nat
  | _, [] => []
  | acc, l :: rest => (acc.extend l).2 :: specOffsetsAux (acc.extend l).1 rest

/-- Spec-side offset list (the claim's words): the first parameter's offset
is 0, the rest follow the extension rule. -/
def specOffsets (first : Layout) (rest : List Layout) : List Nat :=
  0 :: specOffsetsAux first rest

/-! ## Helper lemmas -/

theorem archetype_contains_iff (a : Archetype) (id : Nat) :
    a.contains id = true ↔ id ∈ a.components := by
  simp [Archetype.contains]

mutual

theorem filter_matches_archetype_iff :
    ∀ (f : DynamicFilterState) (a : Archetype),
      f.matches_archetype a = true ↔ FilterAcceptsSpec f a
  | .withOrWithout id wo, a => by
      cases wo <;>
        simp [DynamicFilterState.matches_archetype, FilterAcceptsSpec,
          Bool.xor, Archetype.contains]
  | .or ps, a => by
      simp only [DynamicFilterState.matches_archetype, FilterAcceptsSpec]
      exact filter_any_matches_archetype_iff ps a

theorem filter_any_matches_archetype_iff :
    ∀ (ps : List DynamicFilterState) (a : Archetype),
      DynamicFilterState.anyMatchesArchetype ps a = true ↔ FilterAcceptsAnySpec ps a
  | [], a => by
      simp [DynamicFilterState.anyMatchesArchetype, FilterAcceptsAnySpec]
  | f :: fs, a => by
      simp only [DynamicFilterState.anyMatchesArchetype, FilterAcceptsAnySpec,
        Bool.or_eq_true]
      rw [filter_matches_archetype_iff f a, filter_any_matches_archetype_iff fs a]

end

theorem getLayoutLoop_eq :
    ∀ (rest : List Layout) (full : Layout) (offsets : List Nat),
      getLayoutLoop full offsets rest =
        (specTotalLayout full rest, offsets ++ specOffsetsAux full rest)
  | [], full, offsets => by
      simp [getLayoutLoop, specTotalLayout, specOffsetsAux]
  | l :: rest, full, offsets => by
      simp only [getLayoutLoop, specTotalLayout, specOffsetsAux, List.foldl_cons]
      rw [getLayoutLoop_eq rest (full.extend l).1 (offsets ++ [(full.extend l).2])]
      simp [specTotalLayout]

theorem specOffsetsAux_length :
    ∀ (rest : List Layout) (full : Layout),
      (specOffsetsAux full rest).length = rest.length
  | [], _ => rfl
  | l :: rest, full => by
      simp [specOffsetsAux, specOffsetsAux_length rest]

/-! ## Claim theorems -/

/-- C7: for every type-erased component reference (immutable and mutable
alike) and every requested type identity, `downcast` returns a reference
exactly when the requested identity equals the stored one. -/
theorem c7_downcast_iff_type_id_eq (r : DynamicComponentReference)
    (rm : DynamicMutComponentReference) (t : Nat) :
    ((r.downcast t).isSome = true ↔ t = r.type_id) ∧
      ((rm.downcast t).isSome = true ↔ t = rm.type_id) := by
  constructor
  · simp only [DynamicComponentReference.downcast]
    by_cases h : t = r.type_id <;> simp [h]
  · simp only [DynamicMutComponentReference.downcast]
    by_cases h : t = rm.type_id <;> simp [h]

/-- C10: the per-row filter evaluations `DynamicFilterFetch::archetype_fetch`
and `table_fetch` return `true` unconditionally, and so do the set-level
folds — a filter never excludes an individual row. -/
theorem c10_filter_row_fetch_always_true (f : DynamicFilterFetch)
    (fs : List DynamicFilterFetch) (i j : Nat) :
    f.archetype_fetch i = true ∧ f.table_fetch i = true ∧
      DynamicSetFilterFetch.archetype_fetch fs j = true ∧
      DynamicSetFilterFetch.table_fetch fs j = true := by
  refine ⟨rfl, rfl, ?_, ?_⟩ <;>
    simp [DynamicSetFilterFetch.archetype_fetch,
      DynamicSetFilterFetch.table_fetch, DynamicFilterFetch.archetype_fetch,
      DynamicFilterFetch.table_fetch]

/-- C9: for every non-empty parameter list, `get_layout` returns the total
layout obtained by folding the per-parameter layouts left to right with the
layout-extension rule, together with one offset per parameter, the first
being 0. -/
theorem c9_get_layout_fold_spec (first : Layout) (rest : List Layout) :
    DynamicParamSet.get_layout (first :: rest) =
        some (specTotalLayout first rest, specOffsets first rest) ∧
      (specOffsets first rest).length = (first :: rest).length ∧
      (specOffsets first rest).head? = some 0 := by
  refine ⟨?_, ?_, rfl⟩
  · simp [DynamicParamSet.get_layout, getLayoutLoop_eq, specOffsets]
  · simp [specOffsets, specOffsetsAux_length]

/-- C2: the parameter set accepts an archetype iff every non-optional
component parameter's handle is contained in it (`Entity` and optional
parameters always accept); a filter literal/`Or` accepts per the claim's
clauses (an empty `Or` accepts no archetype); and the top-level filter set
accepts iff all its members accept (an empty set trivially accepts). -/
theorem c2_matches_archetype_iff_spec (ps : List DynamicFetchState)
    (fs : List DynamicFilterState) (f : DynamicFilterState) (a : Archetype) :
    (DynamicSetFetchState.matches_archetype ps a = true ↔
        ∀ p ∈ ps, ParamAcceptsSpec p.param a) ∧
      (f.matches_archetype a = true ↔ FilterAcceptsSpec f a) ∧
      (DynamicSetFilterState.matches_archetype fs a = true ↔
        ∀ g ∈ fs, FilterAcceptsSpec g a) := by
  refine ⟨?_, filter_matches_archetype_iff f a, ?_⟩
  · simp only [DynamicSetFetchState.matches_archetype, List.all_eq_true]
    constructor
    · intro h p hp
      have hm := h p hp
      cases hparam : p.param with
      | entity => simp [ParamAcceptsSpec, hparam]
      | component id opt m =>
          cases opt with
          | true => simp [ParamAcceptsSpec, hparam]
          | false =>
              simp only [ParamAcceptsSpec, hparam]
              rw [← archetype_contains_iff]
              simpa [DynamicFetchState.matches_archetype, hparam] using hm
    · intro h p hp
      have hs := h p hp
      cases hparam : p.param with
      | entity => simp [DynamicFetchState.matches_archetype, hparam]
      | component id opt m =>
          cases opt with
          | true => simp [DynamicFetchState.matches_archetype, hparam]
          | false =>
              simp only [DynamicFetchState.matches_archetype, hparam]
              rw [archetype_contains_iff]
              simpa [ParamAcceptsSpec, hparam] using hs
  · simp only [DynamicSetFilterState.matches_archetype, List.all_eq_true]
    constructor
    · intro h g hg
      exact (filter_matches_archetype_iff g a).1 (h g hg)
    · intro h g hg
      exact (filter_matches_archetype_iff g a).2 (h g hg)

theorem update_component_access_characterization :
    ∀ (ps : List DynamicFetchState) (acc res : FilteredAccess),
      DynamicSetFetchState.update_component_access ps acc = some res →
      res.access.reads = acc.access.reads ∧
        (∀ id, id ∈ res.access.writes ↔
          id ∈ acc.access.writes ∨ id ∈ componentIds ps)
  | [], acc, res => by
      intro h
      simp only [DynamicSetFetchState.update_component_access,
        Option.some.injEq] at h
      subst h
      simp [componentIds]
  | p :: ps, acc, res => by
      intro h
      simp only [DynamicSetFetchState.update_component_access] at h
      cases hp : p.param with
      | entity =>
          rw [show p.update_component_access acc = some acc by
            simp [DynamicFetchState.update_component_access, hp]] at h
          rw [Option.some_bind] at h
          have ih := update_component_access_characterization ps acc res h
          simpa [componentIds, hp] using ih
      | component id opt m =>
          by_cases hr : acc.access.has_read id = true
          · rw [show p.update_component_access acc = none by
              simp [DynamicFetchState.update_component_access, hp, hr]] at h
            simp at h
          · rw [show p.update_component_access acc = some (acc.add_write id) by
              simp [DynamicFetchState.update_component_access, hp,
                Bool.eq_false_iff.mpr hr]] at h
            rw [Option.some_bind] at h
            have ih := update_component_access_characterization ps
              (acc.add_write id) res h
            refine ⟨ih.1, fun j => ?_⟩
            rw [ih.2 j]
            simp only [FilteredAccess.add_write, Access.add_write,
              List.mem_cons, componentIds, List.filterMap_cons, hp]
            simp [componentIds]
            tauto

/-- C1 (counterexample): a query whose single component parameter is
immutable (`mutable = false`) still gets its handle placed in the `writes`
set by `update_component_access`, so the writes set is not the set of
mutable-marked handles. -/
theorem c1_immutable_param_lands_in_writes :
    DynamicSetFetchState.update_component_access
        [⟨.component 5 false false⟩] FilteredAccess.empty =
      some ⟨⟨[], [5]⟩, [], []⟩ ∧
    mutableComponentIds [⟨.component 5 false false⟩] = [] := by
  exact ⟨rfl, rfl⟩

/-- C1 (amended): whenever `update_component_access` completes without
panicking, the published `reads` set is untouched (empty when starting from
the empty declaration) and the `writes` set holds exactly the handles of
*all* component parameters — optional or not, regardless of the `mutable`
flag — so each handle still lies in at most one of `reads` and `writes`. -/
theorem c1_update_access_writes_all_components (ps : List DynamicFetchState)
    (res : FilteredAccess)
    (h : DynamicSetFetchState.update_component_access ps
      FilteredAccess.empty = some res) :
    res.access.reads = [] ∧
      (∀ id, id ∈ res.access.writes ↔ id ∈ componentIds ps) := by
  have hc := update_component_access_characterization ps FilteredAccess.empty res h
  refine ⟨hc.1, fun id => ?_⟩
  rw [hc.2 id]
  simp [FilteredAccess.empty]

theorem c1_witness :
    (DynamicSetFetchState.update_component_access
        [⟨.component 1 false false⟩, ⟨.component 2 false true⟩, ⟨.entity⟩]
        FilteredAccess.empty = some ⟨⟨[], [2, 1]⟩, [], []⟩) ∧
      ((⟨⟨[], [2, 1]⟩, [], []⟩ : FilteredAccess).access.reads = [] ∧
        ∀ id, id ∈ (⟨⟨[], [2, 1]⟩, [], []⟩ : FilteredAccess).access.writes ↔
          id ∈ componentIds
            [⟨.component 1 false false⟩, ⟨.component 2 false true⟩, ⟨.entity⟩]) :=
  ⟨by decide,
    c1_update_access_writes_all_components
      [⟨.component 1 false false⟩, ⟨.component 2 false true⟩, ⟨.entity⟩]
      ⟨⟨[], [2, 1]⟩, [], []⟩ (by decide)⟩

/-- C8 (counterexample): a filter declaring both `With(0)` and `Without(0)`
is not rejected — `filter_state` derives a state for it and
`update_component_access` publishes a declaration whose `with` and `without`
sets intersect; no `UnsatisfiableFilter` error exists anywhere in the
surface. -/
theorem c8_with_without_same_handle_accepted :
    DynamicQuery.filter_state ⟨[], [.with_ 0, .without 0]⟩ =
        [.withOrWithout 0 false, .withOrWithout 0 true] ∧
      DynamicSetFilterState.update_component_access
        (DynamicQuery.filter_state ⟨[], [.with_ 0, .without 0]⟩)
        FilteredAccess.empty = ⟨⟨[], []⟩, [0], [0]⟩ :=
  ⟨rfl, rfl⟩

/-- C8 (amended): no unsatisfiability check exists; a top-level filter set
that contains both `With(h)` and `Without(h)` is accepted at state
derivation (which is total), and the derived filter state simply matches no
archetype. -/
theorem c8_contradictory_filter_matches_no_archetype
    (fs : List DynamicFilterState) (id : Nat) (a : Archetype)
    (h1 : DynamicFilterState.withOrWithout id false ∈ fs)
    (h2 : DynamicFilterState.withOrWithout id true ∈ fs) :
    DynamicSetFilterState.matches_archetype fs a = false := by
  by_contra hne
  rw [Bool.not_eq_false, DynamicSetFilterState.matches_archetype,
    List.all_eq_true] at hne
  have ha := hne _ h1
  have hb := hne _ h2
  simp only [DynamicFilterState.matches_archetype, Bool.xor_false,
    Bool.xor_true, Bool.not_eq_eq_eq_not, Bool.not_true] at ha hb
  rw [ha] at hb
  cases hb

theorem c8_witness :
    (DynamicFilterState.withOrWithout 3 false ∈
        ([.withOrWithout 3 false, .withOrWithout 3 true] :
          List DynamicFilterState)) ∧
      (DynamicFilterState.withOrWithout 3 true ∈
        ([.withOrWithout 3 false, .withOrWithout 3 true] :
          List DynamicFilterState)) ∧
      DynamicSetFilterState.matches_archetype
        [.withOrWithout 3 false, .withOrWithout 3 true] ⟨[], [], [], 0⟩ = false :=
  ⟨List.Mem.head _, List.Mem.tail _ (List.Mem.head _),
    c8_contradictory_filter_matches_no_archetype _ 3 _
      (List.Mem.head _) (List.Mem.tail _ (List.Mem.head _))⟩

/-- C4 (counterexample): with component handle 0 unregistered in an empty
world, `fetch_state` still publishes a state for the query (its codomain
cannot even express an error), and `DynamicFetch::init` panics (`none`)
instead of returning a discriminated `UnknownComponent` value. -/
theorem c4_unregistered_handle_state_still_published :
    DynamicQuery.fetch_state ⟨[.component 0 false false], []⟩ =
        [⟨.component 0 false false⟩] ∧
      DynamicFetch.init ⟨[], []⟩ ⟨.component 0 false false⟩ = none :=
  ⟨rfl, rfl⟩

/-- C4 (amended): state derivation (`fetch_state`) performs no registration
check — it always publishes one state per parameter — and an unregistered
component handle is detected only when the fetch is initialized, where it
causes a panic (modelled as `none`), not a discriminated error value. -/
theorem c4_fetch_state_total_and_init_panics (q : DynamicQuery) (w : World)
    (id : Nat) (opt m : Bool) (hw : w.get_info id = none) :
    DynamicQuery.fetch_state q = q.params.map (fun p => ⟨p⟩) ∧
      (DynamicQuery.fetch_state q).length = q.params.length ∧
      DynamicFetch.init w ⟨.component id opt m⟩ = none := by
  refine ⟨rfl, by simp [DynamicQuery.fetch_state], ?_⟩
  cases opt <;> simp [DynamicFetch.init, hw]

theorem c4_witness :
    (World.get_info ⟨[], []⟩ 7 = none) ∧
      (DynamicQuery.fetch_state ⟨[.component 7 true false], []⟩ =
          [⟨.component 7 true false⟩] ∧
        (DynamicQuery.fetch_state ⟨[.component 7 true false], []⟩).length = 1 ∧
        DynamicFetch.init ⟨[], []⟩ ⟨.component 7 true false⟩ = none) :=
  ⟨rfl, c4_fetch_state_total_and_init_panics ⟨[.component 7 true false], []⟩
    ⟨[], []⟩ 7 true false rfl⟩

theorem traverseOption_forall {α β : Type} {f : α → Option β}
    (p : β → Prop) (q : α → Prop)
    (hpq : ∀ x y, f x = some y → (p y ↔ q x)) :
    ∀ {xs : List α} {ys : List β}, traverseOption f xs = some ys →
      ((∀ y ∈ ys, p y) ↔ (∀ x ∈ xs, q x)) := by
  intro xs
  induction xs with
  | nil =>
      intro ys h
      simp only [traverseOption, Option.some.injEq] at h
      subst h
      simp
  | cons x xs ih =>
      intro ys h
      simp only [traverseOption] at h
      cases hx : f x with
      | none => rw [hx] at h; cases h
      | some y =>
          rw [hx] at h
          cases hxs : traverseOption f xs with
          | none => rw [hxs] at h; cases h
          | some ys0 =>
              rw [hxs] at h
              simp only [Option.some.injEq] at h
              subst h
              simp only [List.mem_cons, forall_eq_or_imp]
              rw [hpq x y hx, ih hxs]

theorem init_is_dense_iff (w : World) (s : DynamicFetchState)
    (df : DynamicFetch) (h : DynamicFetch.init w s = some df) :
    df.is_dense = true ↔ ParamDenseSpec w s.param := by
  cases hp : s.param with
  | entity =>
      rw [DynamicFetch.init, hp] at h
      simp only [Option.some.injEq] at h
      subst h
      simp [DynamicFetch.is_dense, ParamDenseSpec]
  | component id opt m =>
      rw [DynamicFetch.init, hp] at h
      cases opt <;>
      · try dsimp only at h
        cases hinfo : w.get_info id with
        | none => rw [hinfo] at h; cases h
        | some info =>
            rw [hinfo] at h
            try dsimp only at h
            cases hst : info.storage_type with
            | Table =>
                rw [if_neg (by rw [hst]; intro hx; cases hx)] at h
                try dsimp only at h
                simp only [Option.some.injEq] at h
                subst h
                simp only [DynamicFetch.is_dense, hst, ParamDenseSpec]
                exact ⟨fun _ => ⟨info, hinfo, hst⟩, fun _ => trivial⟩
            | SparseSet =>
                rw [if_pos hst] at h
                cases hss : w.get_sparse_set id with
                | none => rw [hss] at h; cases h
                | some ss =>
                    rw [hss] at h
                    try dsimp only at h
                    simp only [Option.some.injEq] at h
                    subst h
                    simp only [DynamicFetch.is_dense, hst, ParamDenseSpec]
                    constructor
                    · intro hfalse; cases hfalse
                    · rintro ⟨info2, hinfo2, hst2⟩
                      rw [hinfo] at hinfo2
                      cases hinfo2
                      rw [hst] at hst2
                      cases hst2

/-- C3: a whole-query fetch produced by `DynamicSetFetch::init` is dense
exactly when every parameter is `Entity` or a component whose resolved
storage kind is `Table`; any `SparseSet` parameter (optional or not) makes
the query non-dense. -/
theorem c3_is_dense_iff_all_table_or_entity (w : World)
    (ps : List DynamicFetchState) (fs : DynamicSetFetch)
    (h : DynamicSetFetch.init w ps = some fs) :
    fs.is_dense = true ↔ ∀ p ∈ ps, ParamDenseSpec w p.param := by
  rw [DynamicSetFetch.init, Option.map_eq_some'] at h
  obtain ⟨l, hl, hfs⟩ := h
  subst hfs
  rw [show DynamicSetFetch.is_dense ⟨l⟩ = l.all DynamicFetch.is_dense from rfl,
    List.all_eq_true]
  exact traverseOption_forall (fun df => df.is_dense = true)
    (fun s => ParamDenseSpec w s.param)
    (fun s df hsd => init_is_dense_iff w s df hsd) hl

theorem c3_witness :
    (DynamicSetFetch.init ⟨[(1, ⟨⟨4, 4⟩, .Table⟩)], []⟩
        [⟨.entity⟩, ⟨.component 1 false true⟩] =
      some ⟨[.entity [], .component 1 ⟨4, 4⟩ .Table 0 [] [] []]⟩) ∧
      ((⟨[.entity [], .component 1 ⟨4, 4⟩ .Table 0 [] [] []]⟩ :
            DynamicSetFetch).is_dense = true ↔
        ∀ p ∈ ([⟨.entity⟩, ⟨.component 1 false true⟩] :
            List DynamicFetchState), ParamDenseSpec
              ⟨[(1, ⟨⟨4, 4⟩, .Table⟩)], []⟩ p.param) :=
  ⟨by decide, c3_is_dense_iff_all_table_or_entity
    ⟨[(1, ⟨⟨4, 4⟩, .Table⟩)], []⟩ [⟨.entity⟩, ⟨.component 1 false true⟩]
    ⟨[.entity [], .component 1 ⟨4, 4⟩ .Table 0 [] [] []]⟩ (by decide)⟩

theorem traverseOption_get {α β : Type} {f : α → Option β} :
    ∀ {xs : List α} {ys : List β}, traverseOption f xs = some ys →
      ∀ k, ys.get? k = (xs.get? k).bind f := by
  intro xs
  induction xs with
  | nil =>
      intro ys h k
      simp only [traverseOption, Option.some.injEq] at h
      subst h
      simp
  | cons x xs ih =>
      intro ys h k
      simp only [traverseOption] at h
      cases hx : f x with
      | none => rw [hx] at h; cases h
      | some y =>
          rw [hx] at h
          cases hxs : traverseOption f xs with
          | none => rw [hxs] at h; cases h
          | some ys0 =>
              rw [hxs] at h
              simp only [Option.some.injEq] at h
              subst h
              cases k with
              | zero => simp [hx]
              | succ k => simpa using ih hxs k

/-- C5: for every successfully yielded row — on the archetype (non-dense)
path via `set_archetype`/`archetype_fetch` and on the dense path via
`set_table`/`table_fetch` alike — the k-th item is exactly what the k-th
parameter of the query description produces, running the per-parameter
pipeline on that parameter alone, so items are yielded per row in parameter
declaration order. -/
theorem c5_row_items_in_param_order (w : World) (q : DynamicQuery)
    (a : Archetype) (ts : List Table) (t : Table) (f0 : DynamicSetFetch)
    (i k : Nat)
    (hinit : DynamicSetFetch.init w q.fetch_state = some f0) :
    (∀ f1 items, f0.set_archetype a ts = some f1 →
      f1.archetype_fetch i = some items →
      items.get? k = (q.params.get? k).bind (fun p =>
        (DynamicFetch.init w ⟨p⟩).bind (fun df =>
          (df.set_archetype a ts).bind (fun df1 =>
            df1.archetype_fetch i)))) ∧
      (∀ f1 items, f0.set_table t = some f1 →
        f1.table_fetch i = some items →
        items.get? k = (q.params.get? k).bind (fun p =>
          (DynamicFetch.init w ⟨p⟩).bind (fun df =>
            (df.set_table t).bind (fun df1 =>
              df1.table_fetch i)))) := by
  rw [DynamicSetFetch.init, Option.map_eq_some'] at hinit
  obtain ⟨l0, hl0, hf0⟩ := hinit
  subst hf0
  constructor
  · intro f1 items hset hfetch
    rw [DynamicSetFetch.set_archetype, Option.map_eq_some'] at hset
    obtain ⟨l1, hl1, hf1⟩ := hset
    subst hf1
    rw [DynamicSetFetch.archetype_fetch] at hfetch
    rw [traverseOption_get hfetch k, traverseOption_get hl1 k,
      traverseOption_get hl0 k, DynamicQuery.fetch_state, List.get?_map]
    cases q.params.get? k <;> simp [Option.bind_assoc]
  · intro f1 items hset hfetch
    rw [DynamicSetFetch.set_table, Option.map_eq_some'] at hset
    obtain ⟨l1, hl1, hf1⟩ := hset
    subst hf1
    rw [DynamicSetFetch.table_fetch] at hfetch
    rw [traverseOption_get hfetch k, traverseOption_get hl1 k,
      traverseOption_get hl0 k, DynamicQuery.fetch_state, List.get?_map]
    cases q.params.get? k <;> simp [Option.bind_assoc]

theorem c5_witness :
    (DynamicSetFetch.init ⟨[], []⟩
        (DynamicQuery.fetch_state ⟨[.entity], []⟩) = some ⟨[.entity []]⟩) ∧
      (DynamicSetFetch.set_archetype ⟨[.entity []]⟩ ⟨[], [7], [], 0⟩ [] =
        some ⟨[.entity [7]]⟩) ∧
      (DynamicSetFetch.archetype_fetch ⟨[.entity [7]]⟩ 0 =
        some [.Entity 7]) ∧
      ([DynamicItem.Entity 7].get? 0 =
        ((⟨[.entity], []⟩ : DynamicQuery).params.get? 0).bind (fun p =>
          (DynamicFetch.init ⟨[], []⟩ ⟨p⟩).bind (fun df =>
            (df.set_archetype ⟨[], [7], [], 0⟩ []).bind (fun df1 =>
              df1.archetype_fetch 0)))) ∧
      (DynamicSetFetch.set_table ⟨[.entity []]⟩ ⟨[], [9]⟩ =
        some ⟨[.entity [9]]⟩) ∧
      (DynamicSetFetch.table_fetch ⟨[.entity [9]]⟩ 0 =
        some [.Entity 9]) ∧
      ([DynamicItem.Entity 9].get? 0 =
        ((⟨[.entity], []⟩ : DynamicQuery).params.get? 0).bind (fun p =>
          (DynamicFetch.init ⟨[], []⟩ ⟨p⟩).bind (fun df =>
            (df.set_table ⟨[], [9]⟩).bind (fun df1 =>
              df1.table_fetch 0)))) :=
  ⟨by decide, by decide, by decide,
    (c5_row_items_in_param_order ⟨[], []⟩ ⟨[.entity], []⟩ ⟨[], [7], [], 0⟩ []
        ⟨[], [9]⟩ ⟨[.entity []]⟩ 0 0 (by decide)).1
      ⟨[.entity [7]]⟩ [.Entity 7] (by decide) (by decide),
    by decide, by decide,
    (c5_row_items_in_param_order ⟨[], []⟩ ⟨[.entity], []⟩ ⟨[], [7], [], 0⟩ []
        ⟨[], [9]⟩ ⟨[.entity []]⟩ 0 0 (by decide)).2
      ⟨[.entity [9]]⟩ [.Entity 9] (by decide) (by decide)⟩

theorem init_optional_shape (w : World) (id : Nat) (m : Bool)
    (df : DynamicFetch)
    (h : DynamicFetch.init w ⟨.component id true m⟩ = some df) :
    ∃ lay st ss, df = .optionalComponent false id lay st 0 [] [] ss := by
  rw [DynamicFetch.init] at h
  try dsimp only at h
  cases hinfo : w.get_info id with
  | none => rw [hinfo] at h; cases h
  | some info =>
      rw [hinfo] at h
      try dsimp only at h
      cases hss : (if info.storage_type = StorageType.SparseSet
          then w.get_sparse_set id else some []) with
      | none => rw [hss] at h; cases h
      | some ss =>
          rw [hss] at h
          try dsimp only at h
          simp only [Option.some.injEq] at h
          exact ⟨info.layout, info.storage_type, ss, h.symm⟩

theorem set_archetype_optional_shape (a : Archetype) (ts : List Table)
    (m0 : Bool) (id : Nat) (lay : Layout) (st : StorageType) (tc : Nat)
    (ents etr : List Nat) (ss : SparseSetData) (df1 : DynamicFetch)
    (h : DynamicFetch.set_archetype
      (.optionalComponent m0 id lay st tc ents etr ss) a ts = some df1) :
    ∃ tc2 ents2 etr2,
      df1 = .optionalComponent (a.contains id) id lay st tc2 ents2 etr2 ss := by
  cases st with
  | Table =>
      rw [DynamicFetch.set_archetype] at h
      try dsimp only at h
      cases hc : a.contains id with
      | false =>
          rw [if_neg (by simp [hc])] at h
          simp only [Option.some.injEq] at h
          exact ⟨tc, ents, etr, h.symm⟩
      | true =>
          rw [if_pos hc] at h
          cases hcol : (ts.get? a.table_id).bind (fun t => t.get_column id) with
          | none => rw [hcol] at h; cases h
          | some col =>
              rw [hcol] at h
              simp only [Option.some.injEq] at h
              exact ⟨col.data_ptr, ents, a.entity_table_rows, h.symm⟩
  | SparseSet =>
      rw [DynamicFetch.set_archetype] at h
      try dsimp only at h
      cases hc : a.contains id with
      | false =>
          rw [if_neg (by simp [hc])] at h
          simp only [Option.some.injEq] at h
          exact ⟨tc, ents, etr, h.symm⟩
      | true =>
          rw [if_pos hc] at h
          simp only [Option.some.injEq] at h
          exact ⟨tc, a.entities, etr, h.symm⟩

theorem set_table_optional_shape (t : Table) (m0 : Bool) (id : Nat)
    (lay : Layout) (st : StorageType) (tc : Nat) (ents etr : List Nat)
    (ss : SparseSetData) (df1 : DynamicFetch)
    (h : DynamicFetch.set_table
      (.optionalComponent m0 id lay st tc ents etr ss) t = some df1) :
    ∃ tc2, df1 = .optionalComponent (t.has_column id) id lay st tc2 ents etr ss := by
  rw [DynamicFetch.set_table] at h
  try dsimp only at h
  cases hc : t.has_column id with
  | false =>
      rw [if_neg (by simp [hc])] at h
      simp only [Option.some.injEq] at h
      exact ⟨tc, h.symm⟩
  | true =>
      rw [if_pos hc] at h
      cases hcol : t.get_column id with
      | none => rw [hcol] at h; cases h
      | some col =>
          rw [hcol] at h
          simp only [Option.some.injEq] at h
          exact ⟨col.data_ptr, h.symm⟩

theorem optional_unmatched_archetype_fetch (id : Nat) (lay : Layout)
    (st : StorageType) (tc : Nat) (ents etr : List Nat) (ss : SparseSetData)
    (i : Nat) :
    DynamicFetch.archetype_fetch
      (.optionalComponent false id lay st tc ents etr ss) i = some .NoMatch := by
  cases st <;> rfl

theorem optional_unmatched_table_fetch (id : Nat) (lay : Layout)
    (st : StorageType) (tc : Nat) (ents etr : List Nat) (ss : SparseSetData)
    (i : Nat) :
    DynamicFetch.table_fetch
      (.optionalComponent false id lay st tc ents etr ss) i = some .NoMatch := by
  cases st <;> rfl

theorem optional_matched_archetype_fetch (id : Nat) (lay : Layout)
    (st : StorageType) (tc : Nat) (ents etr : List Nat) (ss : SparseSetData)
    (i : Nat) (item : DynamicItem)
    (h : DynamicFetch.archetype_fetch
      (.optionalComponent true id lay st tc ents etr ss) i = some item) :
    ∃ ptr, item = .Component ptr := by
  cases st with
  | Table =>
      rw [DynamicFetch.archetype_fetch] at h
      try dsimp only at h
      cases hrow : etr.get? i with
      | none => rw [hrow] at h; cases h
      | some row =>
          rw [hrow] at h
          simp only [Option.some.injEq] at h
          exact ⟨_, h.symm⟩
  | SparseSet =>
      rw [DynamicFetch.archetype_fetch] at h
      try dsimp only at h
      cases hlk : (ents.get? i).bind (fun e => ss.lookup e) with
      | none => rw [hlk] at h; cases h
      | some ptr =>
          rw [hlk] at h
          simp only [Option.some.injEq] at h
          exact ⟨ptr, h.symm⟩

theorem optional_matched_table_fetch (id : Nat) (lay : Layout)
    (st : StorageType) (tc : Nat) (ents etr : List Nat) (ss : SparseSetData)
    (i : Nat) (item : DynamicItem)
    (h : DynamicFetch.table_fetch
      (.optionalComponent true id lay st tc ents etr ss) i = some item) :
    ∃ ptr, item = .Component ptr := by
  rw [DynamicFetch.table_fetch] at h
  try dsimp only at h
  simp only [Option.some.injEq] at h
  exact ⟨_, h.symm⟩

theorem nonoptional_fetch_ne_nomatch (df : DynamicFetch) (i : Nat)
    (hvar : df.isOptionalVariant = false) :
    (∀ item, df.archetype_fetch i = some item → item ≠ .NoMatch) ∧
      (∀ item, df.table_fetch i = some item → item ≠ .NoMatch) := by
  cases df with
  | optionalComponent m0 id lay st tc ents etr ss => cases hvar
  | entity ents =>
      constructor <;> intro item h hn <;> subst hn <;>
      · simp only [DynamicFetch.archetype_fetch, DynamicFetch.table_fetch] at h
        cases hg : ents.get? i with
        | none => rw [hg] at h; cases h
        | some e =>
            rw [hg] at h
            simp only [Option.map_some', Option.some.injEq] at h
            cases h
  | component id lay st tc ents etr ss =>
      constructor <;> intro item h hn <;> subst hn
      · cases st with
        | Table =>
            rw [DynamicFetch.archetype_fetch] at h
            try dsimp only at h
            cases hrow : etr.get? i with
            | none => rw [hrow] at h; cases h
            | some row => rw [hrow] at h; cases h
        | SparseSet =>
            rw [DynamicFetch.archetype_fetch] at h
            try dsimp only at h
            cases hlk : (ents.get? i).bind (fun e => ss.lookup e) with
            | none => rw [hlk] at h; cases h
            | some ptr => rw [hlk] at h; cases h
      · cases st <;> · rw [DynamicFetch.table_fetch] at h; cases h

theorem init_component_nonoptional_variant (w : World) (id : Nat) (m : Bool)
    (df : DynamicFetch)
    (h : DynamicFetch.init w ⟨.component id false m⟩ = some df) :
    df.isOptionalVariant = false := by
  rw [DynamicFetch.init] at h
  try dsimp only at h
  cases hinfo : w.get_info id with
  | none => rw [hinfo] at h; cases h
  | some info =>
      rw [hinfo] at h
      try dsimp only at h
      cases hss : (if info.storage_type = StorageType.SparseSet
          then w.get_sparse_set id else some []) with
      | none => rw [hss] at h; cases h
      | some ss =>
          rw [hss] at h
          try dsimp only at h
          simp only [Option.some.injEq] at h
          subst h
          rfl

theorem init_entity_variant (w : World) (df : DynamicFetch)
    (h : DynamicFetch.init w ⟨.entity⟩ = some df) :
    df.isOptionalVariant = false := by
  rw [DynamicFetch.init] at h
  try dsimp only at h
  simp only [Option.some.injEq] at h
  subst h
  rfl

theorem set_archetype_preserves_nonoptional (a : Archetype) (ts : List Table)
    (df df1 : DynamicFetch) (hvar : df.isOptionalVariant = false)
    (h : df.set_archetype a ts = some df1) :
    df1.isOptionalVariant = false := by
  cases df with
  | optionalComponent m0 id lay st tc ents etr ss => cases hvar
  | entity ents =>
      rw [DynamicFetch.set_archetype] at h
      try dsimp only at h
      simp only [Option.some.injEq] at h
      subst h
      rfl
  | component id lay st tc ents etr ss =>
      cases st with
      | Table =>
          rw [DynamicFetch.set_archetype] at h
          try dsimp only at h
          cases hcol : (ts.get? a.table_id).bind (fun t => t.get_column id) with
          | none => rw [hcol] at h; cases h
          | some col =>
              rw [hcol] at h
              simp only [Option.some.injEq] at h
              subst h
              rfl
      | SparseSet =>
          rw [DynamicFetch.set_archetype] at h
          try dsimp only at h
          simp only [Option.some.injEq] at h
          subst h
          rfl

theorem set_table_preserves_nonoptional (t : Table) (df df1 : DynamicFetch)
    (hvar : df.isOptionalVariant = false) (h : df.set_table t = some df1) :
    df1.isOptionalVariant = false := by
  cases df with
  | optionalComponent m0 id lay st tc ents etr ss => cases hvar
  | entity ents =>
      rw [DynamicFetch.set_table] at h
      try dsimp only at h
      simp only [Option.some.injEq] at h
      subst h
      rfl
  | component id lay st tc ents etr ss =>
      rw [DynamicFetch.set_table] at h
      try dsimp only at h
      cases hcol : t.get_column id with
      | none => rw [hcol] at h; cases h
      | some col =>
          rw [hcol] at h
          simp only [Option.some.injEq] at h
          subst h
          rfl

/-- C6: after entering an archetype (respectively table), an optional
component parameter's fetch yields the `Component` variant (a pointer into
the component's storage) whenever the archetype (table) contains the
component and yields `NoMatch` whenever it does not; fetches originating
from non-optional parameters (`Entity` or a required component) never yield
`NoMatch` on either path. -/
theorem c6_optional_presence_and_nonoptional_never_nomatch (w : World)
    (id : Nat) (m : Bool) (a : Archetype) (ts : List Table) (t : Table)
    (i : Nat) :
    (∀ df df1, DynamicFetch.init w ⟨.component id true m⟩ = some df →
      df.set_archetype a ts = some df1 →
      (a.contains id = false → df1.archetype_fetch i = some .NoMatch) ∧
        (a.contains id = true → ∀ item, df1.archetype_fetch i = some item →
          ∃ ptr, item = .Component ptr)) ∧
      (∀ df df1, DynamicFetch.init w ⟨.component id true m⟩ = some df →
        df.set_table t = some df1 →
        (t.has_column id = false → df1.table_fetch i = some .NoMatch) ∧
          (t.has_column id = true → ∀ item, df1.table_fetch i = some item →
            ∃ ptr, item = .Component ptr)) ∧
      (∀ p df df1, (p = DynamicParam.component id false m ∨ p = .entity) →
        DynamicFetch.init w ⟨p⟩ = some df →
        (df.set_archetype a ts = some df1 ∨ df.set_table t = some df1) →
        ∀ item, (df1.archetype_fetch i = some item ∨
            df1.table_fetch i = some item) →
          item ≠ .NoMatch) := by
  refine ⟨?_, ?_, ?_⟩
  · intro df df1 hinit hset
    obtain ⟨lay, st, ss, rfl⟩ := init_optional_shape w id m df hinit
    obtain ⟨tc2, ents2, etr2, rfl⟩ :=
      set_archetype_optional_shape a ts false id lay st 0 [] [] ss df1 hset
    constructor
    · intro hc
      rw [hc]
      exact optional_unmatched_archetype_fetch id lay st tc2 ents2 etr2 ss i
    · intro hc item hfit
      rw [hc] at hfit
      exact optional_matched_archetype_fetch id lay st tc2 ents2 etr2 ss i
        item hfit
  · intro df df1 hinit hset
    obtain ⟨lay, st, ss, rfl⟩ := init_optional_shape w id m df hinit
    obtain ⟨tc2, rfl⟩ :=
      set_table_optional_shape t false id lay st 0 [] [] ss df1 hset
    constructor
    · intro hc
      rw [hc]
      exact optional_unmatched_table_fetch id lay st tc2 [] [] ss i
    · intro hc item hfit
      rw [hc] at hfit
      exact optional_matched_table_fetch id lay st tc2 [] [] ss i item hfit
  · intro p df df1 hp hinit hset item hfit
    have hvar : df.isOptionalVariant = false := by
      cases hp with
      | inl hc =>
          subst hc
          exact init_component_nonoptional_variant w id m df hinit
      | inr he =>
          subst he
          exact init_entity_variant w df hinit
    have hvar1 : df1.isOptionalVariant = false := by
      cases hset with
      | inl hs => exact set_archetype_preserves_nonoptional a ts df df1 hvar hs
      | inr hs => exact set_table_preserves_nonoptional t df df1 hvar hs
    cases hfit with
    | inl hf => exact (nonoptional_fetch_ne_nomatch df1 i hvar1).1 item hf
    | inr hf => exact (nonoptional_fetch_ne_nomatch df1 i hvar1).2 item hf

theorem c6_witness :
    (DynamicFetch.init ⟨[(4, ⟨⟨4, 4⟩, .Table⟩)], []⟩ ⟨.component 4 true false⟩ =
        some (.optionalComponent false 4 ⟨4, 4⟩ .Table 0 [] [] [])) ∧
      (DynamicFetch.set_archetype
          (.optionalComponent false 4 ⟨4, 4⟩ .Table 0 [] [] [])
          ⟨[], [], [], 0⟩ [] =
        some (.optionalComponent false 4 ⟨4, 4⟩ .Table 0 [] [] [])) ∧
      (Archetype.contains ⟨[], [], [], 0⟩ 4 = false) ∧
      (DynamicFetch.archetype_fetch
          (.optionalComponent false 4 ⟨4, 4⟩ .Table 0 [] [] []) 0 =
        some .NoMatch) :=
  ⟨by decide, by decide, by decide,
    ((c6_optional_presence_and_nonoptional_never_nomatch
        ⟨[(4, ⟨⟨4, 4⟩, .Table⟩)], []⟩ 4 false ⟨[], [], [], 0⟩ [] ⟨[], []⟩ 0).1
      (.optionalComponent false 4 ⟨4, 4⟩ .Table 0 [] [] [])
      (.optionalComponent false 4 ⟨4, 4⟩ .Table 0 [] [] [])
      (by decide) (by decide)).1 (by decide)⟩

end DynQuery
